import Mathlib

/-!
Shallow embedding of the `react-native-classicbluetooth-sdk` repository:
the permission gateway (`src/permission.ts`) and the Bluetooth session
facade. Each exported async function is modelled as a Lean function from
an environment describing the behaviour of the native bindings
(`PermissionsAndroid`, `RNBluetoothClassic`, device methods) to a pair of
the promise outcome (`Except` for resolve/reject) and a trace of observable
events (binding calls, toasts, console logs) in execution order.
-/

namespace BTSDK

/-- Opaque handle to a Bluetooth device, as returned by the binding. -/
abbrev Device := Nat

/-- The three entries of the fixed `ALL_PERMISSIONS` array. -/
inductive Perm where
  | bluetoothScan
  | bluetoothConnect
  | accessFineLocation
  deriving DecidableEq, Repr

/-- Display name of a permission, used in warning messages. -/
def Perm.name : Perm → String
  | .bluetoothScan => "android.permission.BLUETOOTH_SCAN"
  | .bluetoothConnect => "android.permission.BLUETOOTH_CONNECT"
  | .accessFineLocation => "android.permission.ACCESS_FINE_LOCATION"

/-- `ALL_PERMISSIONS` from `src/permission.ts`. -/
def ALL_PERMISSIONS : List Perm :=
  [.bluetoothScan, .bluetoothConnect, .accessFineLocation]

/-- `PermissionsAndroid.RESULTS.GRANTED`. -/
def GRANTED : String := "granted"

/-- A JavaScript value that one of the modelled functions can resolve to. -/
inductive JSValue where
  | undef
  | bool (b : Bool)
  | str (s : String)
  | num (n : Nat)
  | device (d : Device)
  | devices (l : List Device)
  | errVal (msg : String)
  deriving DecidableEq, Repr

/-- Observable events of a run: calls into the native bindings, toasts and
console output, in execution order. -/
inductive Event where
  | callRequestMultiple
  | callCheck (p : Perm)
  | callIsEnabled
  | callRequestEnable
  | callStartDiscovery
  | callCancelDiscovery
  | callConnect (id : String)
  | callDisconnect (id : String)
  | callPair (id : String)
  | callUnpair (id : String)
  | callGetBonded
  | callGetConnected
  | callOpenSettings
  | callRemove (s : Nat)
  | callDeviceRead (d : Device)
  | callDeviceWrite (d : Device) (data : String)
  | callDeviceAvailable (d : Device)
  | callDeviceClear (d : Device)
  | callGetPosition
  | toast (msg : String)
  | logError (msg : String)
  | logWarn (msg : String)
  | logInfo (msg : String)
  deriving DecidableEq, Repr

/-- Whether an event is a call into one of the native bindings (as opposed
to a toast or console output). -/
def Event.isBindingCall : Event → Bool
  | .toast _ => false
  | .logError _ => false
  | .logWarn _ => false
  | .logInfo _ => false
  | _ => true

/-- Whether an event is a user-visible toast. -/
def Event.isToast : Event → Bool
  | .toast _ => true
  | _ => false

/-- Outcome of one run: the promise result (resolve/reject) with the trace. -/
abbrev Run (α : Type) := Except String α × List Event

/-- Behaviour of the native permission binding (`PermissionsAndroid`):
the outcome of `requestMultiple` (a status map on success) and of
`check` per permission. -/
structure PermEnv where
  requestMultiple : Except String (Perm → String)
  check : Perm → Except String Bool

/-- `Promise.all` over a list of already-determined promises: resolves to
the list of values, or rejects with the first rejection. -/
def promiseAll {α : Type} : List (Except String α) → Except String (List α)
  | [] => .ok []
  | .error e :: _ => .error e
  | .ok a :: xs =>
    match promiseAll xs with
    | .ok rest => .ok (a :: rest)
    | .error e => .error e

/-- `requestAllPermissions` from `src/permission.ts`: requests the fixed
set via `requestMultiple`; true iff every permission's status is GRANTED;
warns and returns false on partial denial; catches any error and
returns false. -/
def requestAllPermissions (penv : PermEnv) : Run Bool :=
  match penv.requestMultiple with
  | .ok granted =>
    let allGranted := ALL_PERMISSIONS.all (fun p => granted p == GRANTED)
    if !allGranted then
      let notGranted := ALL_PERMISSIONS.filter (fun p => !(granted p == GRANTED))
      let alertMessage :=
        String.intercalate "\n" (notGranted.map (fun p => p.name ++ " is not granted."))
      (.ok false, [.callRequestMultiple, .logWarn alertMessage])
    else
      (.ok allGranted, [.callRequestMultiple, .logInfo "ALL GRANTED"])
  | .error e =>
    (.ok false, [.callRequestMultiple, .logError ("Error requesting permissions: " ++ e)])

/-- `checkAllPermissions` from `src/permission.ts`: `Promise.all` of
`check` over the fixed set; true iff every result is true; warns and
returns false otherwise; catches any error and returns false. -/
def checkAllPermissions (penv : PermEnv) : Run Bool :=
  let calls := ALL_PERMISSIONS.map Event.callCheck
  match promiseAll (ALL_PERMISSIONS.map penv.check) with
  | .ok results =>
    let allGranted := results.all (fun g => g)
    if !allGranted then
      let notGranted :=
        (ALL_PERMISSIONS.zip results).filterMap
          (fun pr => if pr.2 then none else some pr.1)
      let alertMessage :=
        String.intercalate "\n" (notGranted.map (fun p => p.name ++ " is not granted."))
      (.ok false, calls ++ [.logWarn alertMessage])
    else
      (.ok allGranted, calls)
  | .error e =>
    (.ok false, calls ++ [.logError ("Error checking permissions: " ++ e)])

/-- Behaviour of the native `RNBluetoothClassic` binding and of the
per-device methods: the outcome each underlying call would produce.
Falsy resolutions are modelled as `none` (for device-valued calls) or
`false` (for boolean-valued calls). -/
structure BTEnv where
  isEnabledR : Except String Bool
  requestEnabledR : Except String Bool
  startDiscoveryR : Except String (List Device)
  cancelDiscoveryR : Except String Bool
  connectR : String → Except String (Option Device)
  disconnectR : String → Except String Bool
  pairR : String → Except String (Option Device)
  unpairR : String → Except String Bool
  getBondedR : Except String (List Device)
  getConnectedR : Except String (List Device)
  openSettingsR : Except String Unit
  readR : Device → Except String String
  writeR : Device → String → Except String Bool
  availableR : Device → Except String Nat
  clearR : Device → Except String Bool
  locationOk : Bool

/-- `isBluetoothEnabled`: delegates to the binding; on failure logs and
throws a normalized error. -/
def isBluetoothEnabled (benv : BTEnv) : Run Bool :=
  match benv.isEnabledR with
  | .ok b => (.ok b, [.callIsEnabled])
  | .error e =>
    (.error "Failed to check if Bluetooth is enabled", [.callIsEnabled, .logError e])

/-- `enableBluetooth`: awaits `requestBluetoothEnabled` and discards its
result (the function body has no return statement, so it resolves to
undefined); on failure logs and throws a normalized error. -/
def enableBluetooth (benv : BTEnv) : Run JSValue :=
  match benv.requestEnabledR with
  | .ok _ => (.ok .undef, [.callRequestEnable])
  | .error e =>
    (.error "Failed to enable Bluetooth",
      [.callRequestEnable, .logError ("Error enabling Bluetooth: " ++ e)])

/-- `startDiscovery`: awaits the enabled check, then the permission check;
if disabled, returns the `enableBluetooth` outcome; else if permissions
missing, returns that false; else tries discovery, catching errors into a
returned error value, with `cancelDiscovery` awaited in the `finally`
block (whose own rejection replaces the outcome, per JS semantics). -/
def startDiscovery (benv : BTEnv) (penv : PermEnv) : Run JSValue :=
  match isBluetoothEnabled benv with
  | (.error e, t1) => (.error e, t1)
  | (.ok isBLenabled, t1) =>
    match checkAllPermissions penv with
    | (.error e, t2) => (.error e, t1 ++ t2)
    | (.ok allPermission, t2) =>
      if !isBLenabled then
        let (r, t3) := enableBluetooth benv
        (r, t1 ++ t2 ++ t3)
      else if !allPermission then
        (.ok (.bool allPermission), t1 ++ t2)
      else
        let (tryRes, t3) :=
          match benv.startDiscoveryR with
          | .ok devs => ((Except.ok (JSValue.devices devs) : Except String JSValue),
              [Event.callStartDiscovery])
          | .error e => (.ok (.errVal e), [.callStartDiscovery, .logError e])
        match benv.cancelDiscoveryR with
        | .ok _ =>
          (tryRes, t1 ++ t2 ++ t3 ++ [.callCancelDiscovery, .logInfo "Discovery stopped"])
        | .error e => (.error e, t1 ++ t2 ++ t3 ++ [.callCancelDiscovery])

/-- `stopDiscovery`: awaits `cancelDiscovery`, logging the result; on
failure shows a toast; resolves to undefined either way. -/
def stopDiscovery (benv : BTEnv) : Run JSValue :=
  match benv.cancelDiscoveryR with
  | .ok c => (.ok .undef, [.callCancelDiscovery, .logInfo (toString c)])
  | .error _ =>
    (.ok .undef,
      [.callCancelDiscovery,
        .toast "Error occurred while attempting to cancel discover devices"])

/-- `connectDevice`: awaits `connectToDevice`; a falsy resolution is turned
into a thrown error; any caught error shows a toast and resolves false. -/
def connectDevice (benv : BTEnv) (deviceId : String) : Run JSValue :=
  match benv.connectR deviceId with
  | .ok (some d) =>
    (.ok (.device d),
      [.callConnect deviceId, .logInfo ("Connected to device: " ++ deviceId)])
  | .ok none =>
    (.ok (.bool false),
      [.callConnect deviceId, .toast ("Error connecting to device: " ++ deviceId)])
  | .error _ =>
    (.ok (.bool false),
      [.callConnect deviceId, .toast ("Error connecting to device: " ++ deviceId)])

/-- `disconnectDevice`: awaits `disconnectFromDevice`; a falsy resolution
is turned into a thrown error; caught errors are logged and rethrown. -/
def disconnectDevice (benv : BTEnv) (deviceId : String) : Run JSValue :=
  match benv.disconnectR deviceId with
  | .ok true =>
    (.ok (.bool true),
      [.callDisconnect deviceId, .logInfo ("Disconnected from device: " ++ deviceId)])
  | .ok false =>
    (.error ("Failed to disconnect from device: " ++ deviceId),
      [.callDisconnect deviceId,
        .logError ("Error disconnecting from device: " ++ deviceId)])
  | .error e =>
    (.error e,
      [.callDisconnect deviceId,
        .logError ("Error disconnecting from device: " ++ deviceId)])

/-- `pairDevice`: awaits `pairDevice` on the binding; a falsy resolution is
turned into a thrown error; caught errors are logged and rethrown. -/
def pairDevice (benv : BTEnv) (deviceId : String) : Run JSValue :=
  match benv.pairR deviceId with
  | .ok (some d) => (.ok (.device d), [.callPair deviceId])
  | .ok none =>
    (.error ("Failed to pair with device: " ++ deviceId),
      [.callPair deviceId, .logError ("Error pairing with device: " ++ deviceId)])
  | .error e =>
    (.error e,
      [.callPair deviceId, .logError ("Error pairing with device: " ++ deviceId)])

/-- `unPairDevice`: awaits `unpairDevice` on the binding; a falsy
resolution is turned into a thrown error; caught errors are logged and
rethrown. -/
def unPairDevice (benv : BTEnv) (deviceId : String) : Run JSValue :=
  match benv.unpairR deviceId with
  | .ok true => (.ok (.bool true), [.callUnpair deviceId])
  | .ok false =>
    (.error ("Failed to unpair with device: " ++ deviceId),
      [.callUnpair deviceId, .logError ("Error unpairing with device: " ++ deviceId)])
  | .error e =>
    (.error e,
      [.callUnpair deviceId, .logError ("Error unpairing with device: " ++ deviceId)])

/-- `getPairedDevices`: delegates to `getBondedDevices`; on failure logs
and resolves to the empty list. -/
def getPairedDevices (benv : BTEnv) : Run JSValue :=
  match benv.getBondedR with
  | .ok l => (.ok (.devices l), [.callGetBonded])
  | .error e =>
    (.ok (.devices []), [.callGetBonded, .logError ("Error getting paired devices: " ++ e)])

/-- `getConnectedDevice`: delegates to `getConnectedDevices`; on failure
logs and resolves to the empty list. -/
def getConnectedDevice (benv : BTEnv) : Run JSValue :=
  match benv.getConnectedR with
  | .ok l => (.ok (.devices l), [.callGetConnected])
  | .error e =>
    (.ok (.devices []),
      [.callGetConnected, .logError ("Error getting connected devices: " ++ e)])

/-- `getBondedDevices`: delegates to the binding; on failure logs and
throws a normalized error. -/
def getBondedDevices (benv : BTEnv) : Run JSValue :=
  match benv.getBondedR with
  | .ok l => (.ok (.devices l), [.callGetBonded])
  | .error e =>
    (.error "Failed to fetch bonded devices",
      [.callGetBonded, .logError ("Error fetching bonded devices: " ++ e)])

/-- `openBluetoothSettings`: awaits the binding's settings launcher, then
shows a success toast; on failure logs and throws a normalized error
(no toast on the failure path). -/
def openBluetoothSettings (benv : BTEnv) : Run JSValue :=
  match benv.openSettingsR with
  | .ok _ => (.ok .undef, [.callOpenSettings, .toast "Bluetooth settings opened"])
  | .error e =>
    (.error "Failed to open Bluetooth settings",
      [.callOpenSettings, .logError ("Error opening Bluetooth settings: " ++ e)])

/-- `cleanupSubscriptions`: `forEach` over the list calling `remove` on
each subscription; per JS `forEach` semantics a thrown error propagates
immediately and the remaining subscriptions are not visited. Subscriptions
are identified by `Nat` and `removeR` gives each `remove`'s outcome. -/
def cleanupSubscriptions (removeR : Nat → Except String Unit) :
    List Nat → Run JSValue
  | [] => (.ok .undef, [])
  | s :: rest =>
    match removeR s with
    | .ok _ =>
      let (r, t) := cleanupSubscriptions removeR rest
      (r, .callRemove s :: t)
    | .error e => (.error e, [.callRemove s])

/-- `read`: throws "No device connected." on a null device (caught below),
else awaits `device.read()`; caught errors are logged and replaced by a
normalized error. -/
def read (benv : BTEnv) (device : Option Device) : Run JSValue :=
  match device with
  | none =>
    (.error "Failed to read data from device",
      [.logError "Error reading data from device: No device connected."])
  | some d =>
    match benv.readR d with
    | .ok data =>
      (.ok (.str data), [.callDeviceRead d, .logInfo ("Data read from device: " ++ data)])
    | .error e =>
      (.error "Failed to read data from device",
        [.callDeviceRead d, .logError ("Error reading data from device: " ++ e)])

/-- `write`: throws "No device connected." on a null device (caught
below), else awaits `device.write(data)` and resolves to its boolean
result; caught errors are logged and replaced by a normalized error. -/
def write (benv : BTEnv) (device : Option Device) (data : String) : Run JSValue :=
  match device with
  | none =>
    (.error "Failed to write data to device",
      [.logError ("Error writing data to device: " ++ data ++ ": No device connected.")])
  | some d =>
    match benv.writeR d data with
    | .ok success =>
      (.ok (.bool success),
        if success then [.callDeviceWrite d data, .logInfo ("Data written to device: " ++ data)]
        else [.callDeviceWrite d data])
    | .error e =>
      (.error "Failed to write data to device",
        [.callDeviceWrite d data, .logError ("Error writing data to device: " ++ e)])

/-- `available`: throws "No device connected." on a null device (caught
below), else awaits `device.available()`; caught errors are logged and
replaced by a normalized error. -/
def available (benv : BTEnv) (device : Option Device) : Run JSValue :=
  match device with
  | none =>
    (.error "Failed to check available bytes",
      [.logError "Error checking available bytes: No device connected."])
  | some d =>
    match benv.availableR d with
    | .ok n =>
      (.ok (.num n),
        [.callDeviceAvailable d, .logInfo ("Bytes available to read: " ++ toString n)])
    | .error e =>
      (.error "Failed to check available bytes",
        [.callDeviceAvailable d, .logError ("Error checking available bytes: " ++ e)])

/-- `clear`: throws "No device connected." on a null device (caught
below), else awaits `device.clear()`; caught errors are logged and
replaced by a normalized error. -/
def clear (benv : BTEnv) (device : Option Device) : Run JSValue :=
  match device with
  | none =>
    (.error "Failed to clear buffer",
      [.logError "Error clearing buffer: No device connected."])
  | some d =>
    match benv.clearR d with
    | .ok cleared => (.ok (.bool cleared), [.callDeviceClear d, .logInfo "Buffer cleared"])
    | .error e =>
      (.error "Failed to clear buffer",
        [.callDeviceClear d, .logError ("Error clearing buffer: " ++ e)])

/-- `requestLocationService`: wraps `getCurrentPosition` in a promise that
resolves true on success and false (after logging) on error; it never
rejects. -/
def requestLocationService (benv : BTEnv) : Run JSValue :=
  if benv.locationOk then (.ok (.bool true), [.callGetPosition])
  else (.ok (.bool false), [.callGetPosition, .logError "position error"])

end BTSDK

namespace BTSDK

/-- All-granted condition for `requestMultiple`: it resolved and mapped
every permission of the fixed set to GRANTED. -/
def RequestAllGranted (penv : PermEnv) : Prop :=
  ∃ m, penv.requestMultiple = Except.ok m ∧ ∀ p ∈ ALL_PERMISSIONS, m p = GRANTED

/-- All-granted condition for `check`: every check of the fixed set
resolved to true. -/
def CheckAllGranted (penv : PermEnv) : Prop :=
  ∀ p ∈ ALL_PERMISSIONS, penv.check p = Except.ok true

/-- Whether a trace surfaces at least one user-visible toast. -/
def hasToast (t : List Event) : Bool := t.any Event.isToast

/-- A concrete permission environment in which every permission is granted. -/
def basePermEnv : PermEnv :=
  { requestMultiple := .ok (fun _ => GRANTED)
    check := fun _ => .ok true }

/-- A concrete Bluetooth environment in which every binding call succeeds. -/
def baseBTEnv : BTEnv :=
  { isEnabledR := .ok true
    requestEnabledR := .ok true
    startDiscoveryR := .ok [1, 2]
    cancelDiscoveryR := .ok true
    connectR := fun _ => .ok (some 1)
    disconnectR := fun _ => .ok true
    pairR := fun _ => .ok (some 1)
    unpairR := fun _ => .ok true
    getBondedR := .ok []
    getConnectedR := .ok []
    openSettingsR := .ok ()
    readR := fun _ => .ok "data"
    writeR := fun _ _ => .ok true
    availableR := fun _ => .ok 0
    clearR := fun _ => .ok true
    locationOk := true }

/-- `baseBTEnv` with Bluetooth reported disabled. -/
def baseBTEnvOff : BTEnv := { baseBTEnv with isEnabledR := .ok false }

/-- `baseBTEnv` with a failing settings launcher. -/
def benvSettingsFail : BTEnv := { baseBTEnv with openSettingsR := .error "settings error" }

/-- A remove behaviour where subscription 0's release throws. -/
def removeFail : Nat → Except String Unit :=
  fun n => if n = 0 then Except.error "remove failed" else Except.ok ()

/-- `CheckAllGranted` unfolded to the three concrete checks. -/
lemma CheckAllGranted_iff (penv : PermEnv) :
    CheckAllGranted penv ↔
      penv.check .bluetoothScan = Except.ok true ∧
      penv.check .bluetoothConnect = Except.ok true ∧
      penv.check .accessFineLocation = Except.ok true := by
  constructor
  · intro h
    exact ⟨h _ (by simp [ALL_PERMISSIONS]), h _ (by simp [ALL_PERMISSIONS]),
      h _ (by simp [ALL_PERMISSIONS])⟩
  · rintro ⟨c1, c2, c3⟩ p hp
    fin_cases hp <;> assumption

/-- When all three checks resolve, `checkAllPermissions` resolves to the
conjunction of the three results. -/
lemma checkAllPermissions_fst_ok (penv : PermEnv) (b1 b2 b3 : Bool)
    (h1 : penv.check .bluetoothScan = Except.ok b1)
    (h2 : penv.check .bluetoothConnect = Except.ok b2)
    (h3 : penv.check .accessFineLocation = Except.ok b3) :
    (checkAllPermissions penv).1 = Except.ok (b1 && b2 && b3) := by
  cases b1 <;> cases b2 <;> cases b3 <;>
    simp [checkAllPermissions, ALL_PERMISSIONS, promiseAll, h1, h2, h3]

/-- When all three checks resolve to true, `checkAllPermissions` resolves
to true with a trace of exactly the three check calls. -/
lemma checkAllPermissions_all_true (penv : PermEnv)
    (h1 : penv.check .bluetoothScan = Except.ok true)
    (h2 : penv.check .bluetoothConnect = Except.ok true)
    (h3 : penv.check .accessFineLocation = Except.ok true) :
    checkAllPermissions penv =
      (Except.ok true, ALL_PERMISSIONS.map Event.callCheck) := by
  simp [checkAllPermissions, ALL_PERMISSIONS, promiseAll, h1, h2, h3]

/-- C1: over every combination of granted/denied outcomes (and underlying
failures), `requestAllPermissions` and `checkAllPermissions` always
resolve (never propagate an error), and resolve to true iff every
permission of the fixed set is granted. -/
theorem permissions_resolve_iff_all_granted (penv : PermEnv) :
    (∃ b, (requestAllPermissions penv).1 = Except.ok b ∧
      (b = true ↔ RequestAllGranted penv)) ∧
    (∃ b, (checkAllPermissions penv).1 = Except.ok b ∧
      (b = true ↔ CheckAllGranted penv)) := by
  constructor
  · rcases hreq : penv.requestMultiple with e | m
    · refine ⟨false, ?_, ?_⟩
      · simp [requestAllPermissions, hreq]
      · refine iff_of_false (by simp) ?_
        rintro ⟨m', hm', _⟩
        rw [hreq] at hm'
        exact absurd hm' (by simp)
    · by_cases hall : ∀ p ∈ ALL_PERMISSIONS, m p = GRANTED
      · have hb : ALL_PERMISSIONS.all (fun p => m p == GRANTED) = true :=
          List.all_eq_true.mpr (fun p hp => by simpa using hall p hp)
        refine ⟨true, ?_, ?_⟩
        · simp [requestAllPermissions, hreq, hb]
        · simp only [true_iff]
          exact ⟨m, hreq, hall⟩
      · have hb : ALL_PERMISSIONS.all (fun p => m p == GRANTED) = false := by
          apply Bool.eq_false_iff.mpr
          intro hb
          exact hall (fun p hp => by simpa using List.all_eq_true.mp hb p hp)
        refine ⟨false, ?_, ?_⟩
        · simp [requestAllPermissions, hreq, hb]
        · refine iff_of_false (by simp) ?_
          rintro ⟨m', hm', hgr⟩
          rw [hreq] at hm'
          cases hm'
          exact hall hgr
  · rcases h1 : penv.check .bluetoothScan with e1 | b1
    case error =>
      refine ⟨false,
        by simp [checkAllPermissions, ALL_PERMISSIONS, promiseAll, h1], ?_⟩
      refine iff_of_false (by simp) ?_
      rw [CheckAllGranted_iff]
      rintro ⟨c1, -, -⟩
      rw [h1] at c1
      exact absurd c1 (by simp)
    rcases h2 : penv.check .bluetoothConnect with e2 | b2
    case error =>
      refine ⟨false,
        by simp [checkAllPermissions, ALL_PERMISSIONS, promiseAll, h1, h2], ?_⟩
      refine iff_of_false (by simp) ?_
      rw [CheckAllGranted_iff]
      rintro ⟨-, c2, -⟩
      rw [h2] at c2
      exact absurd c2 (by simp)
    rcases h3 : penv.check .accessFineLocation with e3 | b3
    case error =>
      refine ⟨false,
        by simp [checkAllPermissions, ALL_PERMISSIONS, promiseAll, h1, h2, h3], ?_⟩
      refine iff_of_false (by simp) ?_
      rw [CheckAllGranted_iff]
      rintro ⟨-, -, c3⟩
      rw [h3] at c3
      exact absurd c3 (by simp)
    refine ⟨b1 && b2 && b3, checkAllPermissions_fst_ok penv b1 b2 b3 h1 h2 h3, ?_⟩
    rw [CheckAllGranted_iff]
    rw [h1, h2, h3]
    cases b1 <;> cases b2 <;> cases b3 <;> simp

/-- `checkAllPermissions` always resolves, and its trace always starts
with the three check calls. -/
lemma checkAllPermissions_shape (penv : PermEnv) :
    ∃ b tail, checkAllPermissions penv =
      (Except.ok b, ALL_PERMISSIONS.map Event.callCheck ++ tail) := by
  rcases h1 : penv.check .bluetoothScan with e1 | b1
  case error =>
    exact ⟨false, _,
      by simp [checkAllPermissions, ALL_PERMISSIONS, promiseAll, h1] <;> rfl⟩
  rcases h2 : penv.check .bluetoothConnect with e2 | b2
  case error =>
    exact ⟨false, _,
      by simp [checkAllPermissions, ALL_PERMISSIONS, promiseAll, h1, h2] <;> rfl⟩
  rcases h3 : penv.check .accessFineLocation with e3 | b3
  case error =>
    exact ⟨false, _,
      by simp [checkAllPermissions, ALL_PERMISSIONS, promiseAll, h1, h2, h3] <;> rfl⟩
  cases b1 <;> cases b2 <;> cases b3
  case true.true.true =>
    exact ⟨true, [],
      by simp [checkAllPermissions, ALL_PERMISSIONS, promiseAll, h1, h2, h3]⟩
  all_goals
    exact ⟨false, _,
      by simp [checkAllPermissions, ALL_PERMISSIONS, promiseAll, h1, h2, h3] <;> rfl⟩

/-- The trace of `checkAllPermissions` never contains a toast and never
contains a discovery call. -/
lemma checkAllPermissions_trace_benign (penv : PermEnv) :
    hasToast (checkAllPermissions penv).2 = false ∧
    Event.callStartDiscovery ∉ (checkAllPermissions penv).2 := by
  rcases h1 : penv.check .bluetoothScan with e1 | b1
  case error =>
    simp [checkAllPermissions, ALL_PERMISSIONS, promiseAll, h1, hasToast, Event.isToast]
  rcases h2 : penv.check .bluetoothConnect with e2 | b2
  case error =>
    simp [checkAllPermissions, ALL_PERMISSIONS, promiseAll, h1, h2, hasToast,
      Event.isToast]
  rcases h3 : penv.check .accessFineLocation with e3 | b3
  case error =>
    simp [checkAllPermissions, ALL_PERMISSIONS, promiseAll, h1, h2, h3, hasToast,
      Event.isToast]
  cases b1 <;> cases b2 <;> cases b3 <;>
    simp [checkAllPermissions, ALL_PERMISSIONS, promiseAll, h1, h2, h3, hasToast,
      Event.isToast]

/-- The trace of `enableBluetooth` never contains a toast, and never
contains a discovery call. -/
lemma enableBluetooth_events (benv : BTEnv) :
    hasToast (enableBluetooth benv).2 = false ∧
      Event.callStartDiscovery ∉ (enableBluetooth benv).2 := by
  rcases h : benv.requestEnabledR with e | b <;>
    simp [enableBluetooth, h, hasToast, Event.isToast]

/-- When Bluetooth reports disabled, `startDiscovery` runs the enabled
check, the permission check, then the enable attempt, and takes over the
enable attempt's outcome. -/
lemma startDiscovery_disabled_eq (benv : BTEnv) (penv : PermEnv)
    (hen : benv.isEnabledR = Except.ok false) :
    startDiscovery benv penv =
      ((enableBluetooth benv).1,
        Event.callIsEnabled ::
          ((checkAllPermissions penv).2 ++ (enableBluetooth benv).2)) := by
  obtain ⟨bp, tail, hcp⟩ := checkAllPermissions_shape penv
  rcases hre : benv.requestEnabledR with e | b <;>
    simp [startDiscovery, isBluetoothEnabled, hen, hcp, enableBluetooth, hre]

/-- C3: when Bluetooth is disabled, `startDiscovery` never invokes the
underlying discovery call and resolves or rejects exactly as the
enable-Bluetooth attempt does. -/
theorem discovery_disabled_returns_enable_outcome (benv : BTEnv) (penv : PermEnv)
    (hen : benv.isEnabledR = Except.ok false) :
    (startDiscovery benv penv).1 = (enableBluetooth benv).1 ∧
    Event.callStartDiscovery ∉ (startDiscovery benv penv).2 := by
  rw [startDiscovery_disabled_eq benv penv hen]
  refine ⟨rfl, ?_⟩
  intro hmem
  simp only [List.mem_cons, List.mem_append] at hmem
  rcases hmem with h | h | h
  · exact absurd h (by decide)
  · exact absurd h (checkAllPermissions_trace_benign penv).2
  · exact absurd h (enableBluetooth_events benv).2

/-- Witness for C3 at a concrete disabled environment. -/
theorem discovery_disabled_returns_enable_outcome_witness :
    (startDiscovery baseBTEnvOff basePermEnv).1 = (enableBluetooth baseBTEnvOff).1 ∧
    Event.callStartDiscovery ∉ (startDiscovery baseBTEnvOff basePermEnv).2 :=
  discovery_disabled_returns_enable_outcome baseBTEnvOff basePermEnv rfl

/-- C2: whenever the discovery attempt is made (Bluetooth enabled and all
permissions granted), the trace contains the discovery call and exactly
one cancel-discovery call, whatever the discovery and cancel calls do. -/
theorem discovery_cancel_runs_exactly_once (benv : BTEnv) (penv : PermEnv)
    (hen : benv.isEnabledR = Except.ok true)
    (hperm : CheckAllGranted penv) :
    ((startDiscovery benv penv).2).count Event.callStartDiscovery = 1 ∧
    ((startDiscovery benv penv).2).count Event.callCancelDiscovery = 1 := by
  obtain ⟨c1, c2, c3⟩ := (CheckAllGranted_iff penv).mp hperm
  have hca := checkAllPermissions_all_true penv c1 c2 c3
  rcases hd : benv.startDiscoveryR with e | devs <;>
    rcases hc : benv.cancelDiscoveryR with e2 | b <;>
      constructor <;>
        simp [startDiscovery, isBluetoothEnabled, hen, hca, hd, hc,
          ALL_PERMISSIONS, List.count_append, List.count_cons]

/-- Witness for C2 at a concrete environment where everything succeeds. -/
theorem discovery_cancel_runs_exactly_once_witness :
    ((startDiscovery baseBTEnv basePermEnv).2).count Event.callStartDiscovery = 1 ∧
    ((startDiscovery baseBTEnv basePermEnv).2).count Event.callCancelDiscovery = 1 :=
  discovery_cancel_runs_exactly_once baseBTEnv basePermEnv rfl (fun p _ => rfl)

/-- C4 counterexample: the binding's enable call resolves to true, yet
`enableBluetooth` resolves to undefined — the binding result is
discarded, so the claim "resolves to the binding result" fails. -/
theorem enable_binding_result_discarded_cex :
    baseBTEnv.requestEnabledR = Except.ok true ∧
    (enableBluetooth baseBTEnv).1 = Except.ok JSValue.undef ∧
    (enableBluetooth baseBTEnv).1 ≠ Except.ok (JSValue.bool true) :=
  ⟨rfl, rfl, by simp [enableBluetooth, baseBTEnv]⟩

/-- C4 amended: on success `enableBluetooth` resolves to undefined (the
binding result is discarded); on failure it throws the normalized error
"Failed to enable Bluetooth". -/
theorem enable_resolves_undefined_or_normalized_error (benv : BTEnv) :
    (enableBluetooth benv).1 =
      (match benv.requestEnabledR with
        | .ok _ => Except.ok JSValue.undef
        | .error _ => Except.error "Failed to enable Bluetooth") := by
  rcases h : benv.requestEnabledR with e | b <;> simp [enableBluetooth, h]

/-- C5: `connectDevice` never rejects: for every device id it resolves,
to the connected handle when the binding produced one, and to false on
any failure, including a falsy resolution of the binding. -/
theorem connect_never_rejects (benv : BTEnv) (deviceId : String) :
    ∃ v, (connectDevice benv deviceId).1 = Except.ok v ∧
      ((∃ d, benv.connectR deviceId = Except.ok (some d) ∧ v = JSValue.device d) ∨
        (v = JSValue.bool false ∧
          ¬∃ d, benv.connectR deviceId = Except.ok (some d))) := by
  rcases h : benv.connectR deviceId with e | od
  · exact ⟨.bool false, by simp [connectDevice, h], Or.inr ⟨rfl, by simp [h]⟩⟩
  · cases od with
    | none => exact ⟨.bool false, by simp [connectDevice, h], Or.inr ⟨rfl, by simp [h]⟩⟩
    | some d => exact ⟨.device d, by simp [connectDevice, h], Or.inl ⟨d, rfl, rfl⟩⟩

/-- C6: `disconnectDevice`, `pairDevice` and `unPairDevice` resolve only
to their success value (with a truthy binding result) or reject; a falsy
binding resolution is never passed through silently. -/
theorem disconnect_pair_unpair_never_resolve_falsy (benv : BTEnv) (deviceId : String) :
    (((disconnectDevice benv deviceId).1 = Except.ok (JSValue.bool true) ∧
        benv.disconnectR deviceId = Except.ok true) ∨
      ∃ e, (disconnectDevice benv deviceId).1 = Except.error e) ∧
    ((∃ d, (pairDevice benv deviceId).1 = Except.ok (JSValue.device d) ∧
        benv.pairR deviceId = Except.ok (some d)) ∨
      ∃ e, (pairDevice benv deviceId).1 = Except.error e) ∧
    (((unPairDevice benv deviceId).1 = Except.ok (JSValue.bool true) ∧
        benv.unpairR deviceId = Except.ok true) ∨
      ∃ e, (unPairDevice benv deviceId).1 = Except.error e) := by
  refine ⟨?_, ?_, ?_⟩
  · rcases h : benv.disconnectR deviceId with e | b
    · exact Or.inr ⟨e, by simp [disconnectDevice, h]⟩
    · cases b
      · exact Or.inr ⟨"Failed to disconnect from device: " ++ deviceId,
          by simp [disconnectDevice, h]⟩
      · exact Or.inl ⟨by simp [disconnectDevice, h], rfl⟩
  · rcases h : benv.pairR deviceId with e | od
    · exact Or.inr ⟨e, by simp [pairDevice, h]⟩
    · cases od with
      | none => exact Or.inr ⟨"Failed to pair with device: " ++ deviceId,
          by simp [pairDevice, h]⟩
      | some d => exact Or.inl ⟨d, by simp [pairDevice, h], rfl⟩
  · rcases h : benv.unpairR deviceId with e | b
    · exact Or.inr ⟨e, by simp [unPairDevice, h]⟩
    · cases b
      · exact Or.inr ⟨"Failed to unpair with device: " ++ deviceId,
          by simp [unPairDevice, h]⟩
      · exact Or.inl ⟨by simp [unPairDevice, h], rfl⟩

/-- C7 counterexample: with subscriptions `[0, 1]` where releasing 0
throws, subscription 1 is never released, refuting "exactly once on each
... even if one of the releases throws". -/
theorem cleanup_abort_on_throw_cex :
    (cleanupSubscriptions removeFail [0, 1]).2 = [Event.callRemove 0] ∧
    Event.callRemove 1 ∉ (cleanupSubscriptions removeFail [0, 1]).2 ∧
    (cleanupSubscriptions removeFail [0, 1]).1 = Except.error "remove failed" := by
  refine ⟨rfl, by decide, rfl⟩

/-- C7 amended: when no release throws, `cleanupSubscriptions` releases
each subscription exactly once, in list order; a throwing release aborts
the iteration, so later subscriptions are not released. -/
theorem cleanup_releases_each_once_in_order (removeR : Nat → Except String Unit)
    (subs : List Nat) (h : ∀ s ∈ subs, removeR s = Except.ok ()) :
    cleanupSubscriptions removeR subs =
      (Except.ok JSValue.undef, subs.map Event.callRemove) := by
  induction subs with
  | nil => rfl
  | cons s rest ih =>
    have hs := h s (by simp)
    have hr := ih (fun x hx => h x (by simp [hx]))
    simp [cleanupSubscriptions, hs, hr]

/-- Witness for the amended C7 at a concrete list. -/
theorem cleanup_releases_each_once_in_order_witness :
    cleanupSubscriptions (fun _ => Except.ok ()) [5, 7] =
      (Except.ok JSValue.undef, [Event.callRemove 5, Event.callRemove 7]) :=
  cleanup_releases_each_once_in_order (fun _ => Except.ok ()) [5, 7] (fun _ _ => rfl)

/-- C8 counterexample: `read(null)` rejects with the normalized error
"Failed to read data from device", not with the "No device connected."
error, which is only logged. -/
theorem read_null_rejection_is_normalized_cex :
    (read baseBTEnv none).1 = Except.error "Failed to read data from device" ∧
    "Failed to read data from device" ≠ "No device connected." ∧
    Event.logError "Error reading data from device: No device connected." ∈
      (read baseBTEnv none).2 :=
  ⟨rfl, by decide, by simp [read]⟩

/-- C8 amended: on a null device, `read`, `write`, `available` and
`clear` each reject with their normalized failure error (the
"No device connected." cause is logged, not thrown) and never contact
the binding: the trace holds no binding call. -/
theorem null_device_rejects_without_binding (benv : BTEnv) (data : String) :
    ((read benv none).1 = Except.error "Failed to read data from device" ∧
      (read benv none).2.all (fun ev => !ev.isBindingCall) = true) ∧
    ((write benv none data).1 = Except.error "Failed to write data to device" ∧
      (write benv none data).2.all (fun ev => !ev.isBindingCall) = true) ∧
    ((available benv none).1 = Except.error "Failed to check available bytes" ∧
      (available benv none).2.all (fun ev => !ev.isBindingCall) = true) ∧
    ((clear benv none).1 = Except.error "Failed to clear buffer" ∧
      (clear benv none).2.all (fun ev => !ev.isBindingCall) = true) :=
  ⟨⟨rfl, rfl⟩, ⟨rfl, rfl⟩, ⟨rfl, rfl⟩, ⟨rfl, rfl⟩⟩

/-- The trace of `startDiscovery` never contains a toast. -/
lemma startDiscovery_no_toast (benv : BTEnv) (penv : PermEnv) :
    hasToast (startDiscovery benv penv).2 = false := by
  have hcpt := (checkAllPermissions_trace_benign penv).1
  obtain ⟨bp, tail, hcp⟩ := checkAllPermissions_shape penv
  rw [hcp] at hcpt
  rcases hen : benv.isEnabledR with e | b
  · simp [startDiscovery, isBluetoothEnabled, hen, hasToast, Event.isToast]
  · cases b
    · rcases hre : benv.requestEnabledR with e2 | b2 <;>
        simp_all [startDiscovery, isBluetoothEnabled, hen, hcp, enableBluetooth, hre,
          hasToast, Event.isToast, List.any_append]
    · cases bp
      · simp_all [startDiscovery, isBluetoothEnabled, hen, hcp, hasToast,
          Event.isToast, List.any_append]
      · rcases hd : benv.startDiscoveryR with e3 | devs <;>
          rcases hc : benv.cancelDiscoveryR with e4 | b4 <;>
            simp_all [startDiscovery, isBluetoothEnabled, hen, hcp, hasToast,
              Event.isToast, List.any_append]

/-- The trace of `cleanupSubscriptions` never contains a toast. -/
lemma cleanupSubscriptions_no_toast (removeR : Nat → Except String Unit)
    (subs : List Nat) :
    hasToast (cleanupSubscriptions removeR subs).2 = false := by
  induction subs with
  | nil => rfl
  | cons s rest ih =>
    rcases h : removeR s with e | u
    · simp [cleanupSubscriptions, h, hasToast, Event.isToast]
    · simp only [cleanupSubscriptions, h, hasToast, Event.isToast] at ih ⊢
      simp [List.any_cons, Event.isToast, ih]

/-- C9 counterexample: when opening the Bluetooth settings fails, no
toast is surfaced — the failure path only logs and throws — refuting
the claim that both success and failure of opening settings toast. -/
theorem settings_failure_shows_no_toast_cex :
    benvSettingsFail.openSettingsR = Except.error "settings error" ∧
    (openBluetoothSettings benvSettingsFail).1 =
      Except.error "Failed to open Bluetooth settings" ∧
    hasToast (openBluetoothSettings benvSettingsFail).2 = false :=
  ⟨rfl, rfl, rfl⟩

/-- C9 amended: across every modelled operation, a toast is surfaced
exactly for: cancel-discovery failure in `stopDiscovery`, any
`connectDevice` failure, and `openBluetoothSettings` success (its failure
path does not toast); no other operation ever toasts. -/
theorem toast_surface_exactly (benv : BTEnv) (penv : PermEnv) (deviceId : String)
    (data : String) (removeR : Nat → Except String Unit) (subs : List Nat)
    (dev : Option Device) :
    hasToast (requestAllPermissions penv).2 = false ∧
    hasToast (checkAllPermissions penv).2 = false ∧
    hasToast (requestLocationService benv).2 = false ∧
    hasToast (isBluetoothEnabled benv).2 = false ∧
    hasToast (enableBluetooth benv).2 = false ∧
    hasToast (startDiscovery benv penv).2 = false ∧
    (hasToast (stopDiscovery benv).2 = true ↔
      ∃ e, benv.cancelDiscoveryR = Except.error e) ∧
    (hasToast (connectDevice benv deviceId).2 = true ↔
      ¬∃ d, benv.connectR deviceId = Except.ok (some d)) ∧
    hasToast (disconnectDevice benv deviceId).2 = false ∧
    hasToast (pairDevice benv deviceId).2 = false ∧
    hasToast (unPairDevice benv deviceId).2 = false ∧
    hasToast (getPairedDevices benv).2 = false ∧
    hasToast (getConnectedDevice benv).2 = false ∧
    hasToast (getBondedDevices benv).2 = false ∧
    (hasToast (openBluetoothSettings benv).2 = true ↔
      benv.openSettingsR = Except.ok ()) ∧
    hasToast (cleanupSubscriptions removeR subs).2 = false ∧
    hasToast (read benv dev).2 = false ∧
    hasToast (write benv dev data).2 = false ∧
    hasToast (available benv dev).2 = false ∧
    hasToast (clear benv dev).2 = false := by
  refine ⟨?_, (checkAllPermissions_trace_benign penv).1, ?_, ?_,
    (enableBluetooth_events benv).1, startDiscovery_no_toast benv penv,
    ?_, ?_, ?_, ?_, ?_, ?_, ?_, ?_, ?_,
    cleanupSubscriptions_no_toast removeR subs, ?_, ?_, ?_, ?_⟩
  · rcases hreq : penv.requestMultiple with e | m
    · simp [requestAllPermissions, hreq, hasToast, Event.isToast]
    · simp only [requestAllPermissions, hreq]
      split <;> simp [hasToast, Event.isToast]
  · cases hl : benv.locationOk <;>
      simp [requestLocationService, hl, hasToast, Event.isToast]
  · rcases hen : benv.isEnabledR with e | b <;>
      simp [isBluetoothEnabled, hen, hasToast, Event.isToast]
  · rcases hc : benv.cancelDiscoveryR with e | b <;>
      simp [stopDiscovery, hc, hasToast, Event.isToast]
  · rcases h : benv.connectR deviceId with e | od
    · simp [connectDevice, h, hasToast, Event.isToast]
    · cases od <;> simp [connectDevice, h, hasToast, Event.isToast]
  · rcases h : benv.disconnectR deviceId with e | b
    · simp [disconnectDevice, h, hasToast, Event.isToast]
    · cases b <;> simp [disconnectDevice, h, hasToast, Event.isToast]
  · rcases h : benv.pairR deviceId with e | od
    · simp [pairDevice, h, hasToast, Event.isToast]
    · cases od <;> simp [pairDevice, h, hasToast, Event.isToast]
  · rcases h : benv.unpairR deviceId with e | b
    · simp [unPairDevice, h, hasToast, Event.isToast]
    · cases b <;> simp [unPairDevice, h, hasToast, Event.isToast]
  · rcases h : benv.getBondedR with e | l <;>
      simp [getPairedDevices, h, hasToast, Event.isToast]
  · rcases h : benv.getConnectedR with e | l <;>
      simp [getConnectedDevice, h, hasToast, Event.isToast]
  · rcases h : benv.getBondedR with e | l <;>
      simp [getBondedDevices, h, hasToast, Event.isToast]
  · rcases h : benv.openSettingsR with e | u <;>
      simp [openBluetoothSettings, h, hasToast, Event.isToast]
  · rcases dev with - | d
    · simp [read, hasToast, Event.isToast]
    · rcases h : benv.readR d with e | s <;>
        simp [read, h, hasToast, Event.isToast]
  · rcases dev with - | d
    · simp [write, hasToast, Event.isToast]
    · rcases h : benv.writeR d data with e | b
      · simp [write, h, hasToast, Event.isToast]
      · cases b <;> simp [write, h, hasToast, Event.isToast]
  · rcases dev with - | d
    · simp [available, hasToast, Event.isToast]
    · rcases h : benv.availableR d with e | n <;>
        simp [available, h, hasToast, Event.isToast]
  · rcases dev with - | d
    · simp [clear, hasToast, Event.isToast]
    · rcases h : benv.clearR d with e | b <;>
        simp [clear, h, hasToast, Event.isToast]

/-- Under a resolving enabled check, the `startDiscovery` trace starts
with the enabled call followed by the whole permission-check trace. -/
lemma startDiscovery_trace_shape (benv : BTEnv) (penv : PermEnv) (b : Bool)
    (hen : benv.isEnabledR = Except.ok b) :
    ∃ more, (startDiscovery benv penv).2 =
      Event.callIsEnabled :: ((checkAllPermissions penv).2 ++ more) := by
  obtain ⟨bp, tail, hcp⟩ := checkAllPermissions_shape penv
  cases b
  · rcases hre : benv.requestEnabledR with e | b2 <;>
      exact ⟨_, by
        simp [startDiscovery, isBluetoothEnabled, hen, hcp, enableBluetooth, hre] <;>
          rfl⟩
  · cases bp
    · exact ⟨[], by simp [startDiscovery, isBluetoothEnabled, hen, hcp]⟩
    · rcases hd : benv.startDiscoveryR with e3 | devs <;>
        rcases hc : benv.cancelDiscoveryR with e4 | b4 <;>
          exact ⟨_, by
            simp [startDiscovery, isBluetoothEnabled, hen, hcp, hd, hc] <;> rfl⟩

/-- C10: whenever the enabled check resolves, `startDiscovery`'s trace
begins with the enabled-check call followed by the three permission
checks, before any branch action; and when Bluetooth is disabled the
outcome does not depend on the permission environment at all. -/
theorem discovery_awaits_enabled_then_permissions (benv : BTEnv) (penv : PermEnv)
    (b : Bool) (hen : benv.isEnabledR = Except.ok b) :
    (∃ rest, (startDiscovery benv penv).2 =
      Event.callIsEnabled :: (ALL_PERMISSIONS.map Event.callCheck ++ rest)) ∧
    (b = false → ∀ penv' : PermEnv,
      (startDiscovery benv penv).1 = (startDiscovery benv penv').1) := by
  constructor
  · obtain ⟨more, hm⟩ := startDiscovery_trace_shape benv penv b hen
    obtain ⟨bp, tail, hcp⟩ := checkAllPermissions_shape penv
    refine ⟨tail ++ more, ?_⟩
    rw [hm, hcp]
    simp [List.append_assoc]
  · rintro rfl penv'
    rw [startDiscovery_disabled_eq benv penv hen,
      startDiscovery_disabled_eq benv penv' hen]

/-- Witness for C10 at a concrete disabled environment. -/
theorem discovery_awaits_enabled_then_permissions_witness :
    (∃ rest, (startDiscovery baseBTEnvOff basePermEnv).2 =
      Event.callIsEnabled :: (ALL_PERMISSIONS.map Event.callCheck ++ rest)) ∧
    (false = false → ∀ penv' : PermEnv,
      (startDiscovery baseBTEnvOff basePermEnv).1 =
        (startDiscovery baseBTEnvOff penv').1) :=
  discovery_awaits_enabled_then_permissions baseBTEnvOff basePermEnv false rfl

end BTSDK
